import Mathlib

/-!
Verification of the command-dispatch / response-aggregation / actor-failover
engine of src/main.py against its natural-language specification.

The Python source is shallowly embedded: timestamps (datetime values) become
integers counting seconds, the global mutable bot_fail_tracker dictionary
becomes an explicit state of type Tracker threaded through the functions, and
the Telethon transport is abstracted into per-bot behaviours (what the
collection phase observed for each bot).  Field dictionaries produced by the
text-normalization collaborator become association lists whose values are
either strings or booleans, matching the Python dict values.
-/

namespace TlgmApi

/-! ## Configuration constants (src/main.py lines 45-52) -/

def LEDERDATA_BOT_ID : String := "@LEDERDATA_OFC_BOT"

def LEDERDATA_BACKUP_BOT_ID : String := "@lederdata_publico_bot"

def TIMEOUT_PRIMARY : Nat := 35

def TIMEOUT_BACKUP : Nat := 50

def BOT_BLOCK_HOURS : Nat := 4

/-! ## Circuit breaker (src/main.py lines 54-76)

The Python code keeps a module-level dict bot_fail_tracker mapping a bot id to
the datetime of its last recorded failure.  We model the dict as a function
from bot ids to an optional timestamp (seconds, as an integer so that the
datetime subtraction now - timedelta(hours=4) never truncates). -/

abbrev Tracker := String → Option Int

/-- Block duration in seconds: timedelta(hours=BOT_BLOCK_HOURS). -/
def blockDuration : Int := (BOT_BLOCK_HOURS : Int) * 3600

/-- Embedding of is_bot_blocked (src/main.py lines 57-71).  Returns the boolean
answer together with the (possibly lazily-expired) tracker state, since the
Python function pops the entry as a side effect when the block has elapsed. -/
def is_bot_blocked (t : Tracker) (now : Int) (botId : String) : Bool × Tracker :=
  match t botId with
  | none => (false, t)
  | some lastFail =>
    if now - blockDuration < lastFail then
      (true, t)
    else
      (false, fun b => if b = botId then none else t b)

/-- Embedding of record_bot_failure (src/main.py lines 73-76): unconditionally
overwrite the bot's last-failure timestamp with now. -/
def record_bot_failure (t : Tracker) (now : Int) (botId : String) : Tracker :=
  fun b => if b = botId then some now else t b

/-- C3: is_bot_blocked returns true iff a failure timestamp is stored and
now minus that timestamp is less than the configured block duration; when the
stored timestamp has aged past the block duration it is cleared as a side
effect and false is returned; record_bot_failure unconditionally overwrites
the stored timestamp with now; and both operations leave every other actor's
entry untouched (no cross-actor leakage). -/
theorem c3_circuit_breaker (t : Tracker) (now lf : Int) (b b' : String) :
    ((is_bot_blocked t now b).1 = true ↔ ∃ l, t b = some l ∧ now - l < blockDuration)
    ∧ (t b = some lf → blockDuration ≤ now - lf →
        (is_bot_blocked t now b).1 = false ∧ (is_bot_blocked t now b).2 b = none)
    ∧ record_bot_failure t now b b = some now
    ∧ (b' ≠ b → record_bot_failure t now b b' = t b'
        ∧ (is_bot_blocked t now b).2 b' = t b') := by
  refine ⟨?_, ?_, ?_, ?_⟩
  · cases h : t b with
    | none => simp [is_bot_blocked, h]
    | some l =>
      simp only [is_bot_blocked, h]
      by_cases hlt : now - blockDuration < l
      · simp only [if_pos hlt]
        constructor
        · intro _
          exact ⟨l, rfl, by omega⟩
        · intro _
          trivial
      · simp only [if_neg hlt]
        constructor
        · intro hb
          exact absurd hb (by simp)
        · rintro ⟨l2, hl2, hlt2⟩
          obtain rfl : l = l2 := Option.some.inj hl2
          omega
  · intro hstore hold
    simp only [is_bot_blocked, hstore]
    rw [if_neg (by omega)]
    simp
  · unfold record_bot_failure
    simp
  · intro hne
    refine ⟨?_, ?_⟩
    · unfold record_bot_failure
      simp [hne]
    · cases h : t b with
      | none => simp [is_bot_blocked, h]
      | some l =>
        simp only [is_bot_blocked, h]
        by_cases hlt : now - blockDuration < l
        · simp [if_pos hlt]
        · simp [if_neg hlt, hne]

/-- Example tracker state: the primary bot failed at time 0. -/
def trackerEx : Tracker :=
  fun b => if b = LEDERDATA_BOT_ID then some 0 else none

/-- Witness for C3: concrete runs of the circuit breaker at time 100 (inside
the 14400-second block window) and at time 20000 (past it). -/
theorem c3_circuit_breaker_witness :
    (is_bot_blocked trackerEx 100 LEDERDATA_BOT_ID).1 = true
    ∧ record_bot_failure trackerEx 100 LEDERDATA_BOT_ID LEDERDATA_BOT_ID = some 100
    ∧ record_bot_failure trackerEx 100 LEDERDATA_BOT_ID LEDERDATA_BACKUP_BOT_ID
        = trackerEx LEDERDATA_BACKUP_BOT_ID
    ∧ (is_bot_blocked trackerEx 20000 LEDERDATA_BOT_ID).2 LEDERDATA_BOT_ID = none := by
  refine ⟨?_, ?_, ?_, ?_⟩
  · exact (c3_circuit_breaker trackerEx 100 0 LEDERDATA_BOT_ID
      LEDERDATA_BACKUP_BOT_ID).1.mpr ⟨0, by decide, by decide⟩
  · exact (c3_circuit_breaker trackerEx 100 0 LEDERDATA_BOT_ID
      LEDERDATA_BACKUP_BOT_ID).2.2.1
  · exact ((c3_circuit_breaker trackerEx 100 0 LEDERDATA_BOT_ID
      LEDERDATA_BACKUP_BOT_ID).2.2.2 (by decide)).1
  · exact ((c3_circuit_breaker trackerEx 20000 0 LEDERDATA_BOT_ID
      LEDERDATA_BACKUP_BOT_ID).2.1 (by decide) (by decide)).2

/-! ## Response collector: the idle-timeout wait loop (src/main.py lines 490-512)

The Python loop polls every 0.5 seconds: it computes the elapsed time since
the command was sent and the silence since the last received message; once at
least one message has been received, a silence strictly greater than 4.0
seconds closes the collection (CLOSED_OK); if the total elapsed time exceeds
the bot's timeout with zero messages a TimeoutError is raised
(CLOSED_EMPTY_TIMEOUT), and with messages present the collection also closes
with what was gathered.

We measure time in polling ticks of 0.5 seconds.  arrivals lists the tick
times at which matching messages were appended by the handler;
last_message_time is initialised to the start time (tick 0), so the last
activity is the maximum arrival not later than the current tick, or 0.  The
4.0-second idle threshold is 8 ticks and the 35-second primary timeout is 70
ticks; both comparisons are strict as in the source.  The loop is run on
explicit fuel; collect supplies timeout + 2 units, enough to reach the tick
right after the total timeout where the loop always stops. -/

/-- Number of messages received up to (and including) tick k. -/
def receivedCount (arrivals : List Nat) (k : Nat) : Nat :=
  (arrivals.filter (fun a => decide (a ≤ k))).length

/-- Tick of the last activity seen by tick k: the latest arrival not after k,
or the start tick 0 when nothing arrived yet (last_message_time is initialised
to the start time, src/main.py line 351 and 480). -/
def lastActivity (arrivals : List Nat) (k : Nat) : Nat :=
  (arrivals.filter (fun a => decide (a ≤ k))).foldr max 0

/-- Terminal states of a collection session. -/
inductive CloseState where
  | closedOk
  | closedEmptyTimeout
deriving DecidableEq, Repr

/-- One-loop embedding of the wait loop (src/main.py lines 494-512), returning
the terminal state together with the tick at which the loop stopped. -/
def collectLoop (arrivals : List Nat) (timeout idle : Nat) : Nat → Nat → CloseState × Nat
  | 0, k => (CloseState.closedEmptyTimeout, k)
  | fuel + 1, k =>
    if 0 < receivedCount arrivals k ∧ idle < k - lastActivity arrivals k then
      (CloseState.closedOk, k)
    else if timeout < k then
      (if receivedCount arrivals k = 0 then CloseState.closedEmptyTimeout
       else CloseState.closedOk, k)
    else
      collectLoop arrivals timeout idle fuel (k + 1)

/-- The collection session: run the wait loop from tick 0 with enough fuel to
reach the first tick strictly past the total timeout. -/
def collect (arrivals : List Nat) (timeout idle : Nat) : CloseState × Nat :=
  collectLoop arrivals timeout idle (timeout + 2) 0

theorem foldr_max_le (L : Nat) :
    ∀ (l : List Nat), (∀ a ∈ l, a ≤ L) → l.foldr max 0 ≤ L := by
  intro l
  induction l with
  | nil => intro _; exact Nat.zero_le L
  | cons a l ih =>
    intro h
    simp only [List.foldr_cons]
    exact Nat.max_le.mpr ⟨h a (List.mem_cons_self a l), ih fun x hx => h x (List.mem_cons_of_mem a hx)⟩

theorem receivedCount_pos (arrivals : List Nat) (k : Nat)
    (hne : arrivals ≠ []) (h : ∀ a ∈ arrivals, a ≤ k) :
    0 < receivedCount arrivals k := by
  unfold receivedCount
  rw [List.filter_eq_self.mpr (fun a ha => by simpa using h a ha)]
  exact List.length_pos.mpr hne

theorem lastActivity_le (arrivals : List Nat) (k L : Nat)
    (h : ∀ a ∈ arrivals, a ≤ L) : lastActivity arrivals k ≤ L := by
  unfold lastActivity
  exact foldr_max_le L _ (fun a ha => h a (List.mem_filter.mp ha).1)

theorem collectLoop_idle_close (arrivals : List Nat) (timeout idle L : Nat)
    (hne : arrivals ≠ []) (hL : ∀ a ∈ arrivals, a ≤ L) (hto : L + idle < timeout) :
    ∀ fuel k, k ≤ L + idle + 1 → L + idle + 1 < k + fuel →
    (collectLoop arrivals timeout idle fuel k).1 = CloseState.closedOk ∧
    (collectLoop arrivals timeout idle fuel k).2 ≤ L + idle + 1 := by
  intro fuel
  induction fuel with
  | zero =>
    intro k hk hfuel
    omega
  | succ fuel ih =>
    intro k hk hfuel
    by_cases hcond : 0 < receivedCount arrivals k ∧ idle < k - lastActivity arrivals k
    · simp only [collectLoop, if_pos hcond]
      exact ⟨trivial, hk⟩
    · have hnot : ¬ timeout < k := by omega
      have hklt : k < L + idle + 1 := by
        rcases Nat.lt_or_ge k (L + idle + 1) with hlt | hge
        · exact hlt
        · exfalso
          have hkeq : k = L + idle + 1 := by omega
          apply hcond
          subst hkeq
          constructor
          · exact receivedCount_pos arrivals _ hne (fun a ha => by have := hL a ha; omega)
          · have := lastActivity_le arrivals (L + idle + 1) L hL
            omega
      simp only [collectLoop, if_neg hcond, if_neg hnot]
      exact ih (k + 1) (by omega) (by omega)

/-- C5: a collection session that has received at least one matching message
closes as CLOSED_OK once the silence since the last received message exceeds
the idle threshold, without waiting for the total timeout: if all arrivals
are at ticks at most L and L + idle is below the total timeout, the session
closes CLOSED_OK no later than tick L + idle + 1 (one tick past the idle
threshold measured from the last message). -/
theorem c5_idle_completion (arrivals : List Nat) (timeout idle L : Nat)
    (hne : arrivals ≠ []) (hL : ∀ a ∈ arrivals, a ≤ L) (hto : L + idle < timeout) :
    (collect arrivals timeout idle).1 = CloseState.closedOk ∧
    (collect arrivals timeout idle).2 ≤ L + idle + 1 := by
  unfold collect
  exact collectLoop_idle_close arrivals timeout idle L hne hL hto (timeout + 2) 0
    (by omega) (by omega)

/-- Witness for C5: messages at t = 0, 1, 2 seconds (ticks 0, 2, 4) with the
primary profile (idle threshold 4 s = 8 ticks, total timeout 35 s = 70 ticks)
close CLOSED_OK by tick 13 (6.5 s, which is t = 2 s plus the idle threshold
plus one polling granule) — far before the total timeout. -/
theorem c5_idle_completion_witness :
    (collect [0, 2, 4] 70 8).1 = CloseState.closedOk ∧
    (collect [0, 2, 4] 70 8).2 ≤ 13 :=
  c5_idle_completion [0, 2, 4] 70 8 4 (by decide) (by decide) (by decide)

/-! ## Messages and extracted fields

clean_and_extract (src/main.py lines 241-278) is the external
text-normalization collaborator: it returns a cleaned text and a dict of
extracted fields whose values are strings (dni, ruc, photo_type) or the
boolean True (not_found).  We embed the dict as an association list of FVal
values and take the collaborator's output as given on each incoming event;
the attachment-download plumbing (lines 388-448) carries no information used
by any classification or failover decision and is not modelled. -/

inductive FVal where
  | str (v : String)
  | flag (v : Bool)
deriving DecidableEq, Repr

/-- Python truthiness of dict.get(key, False) for our field values. -/
def truthy : Option FVal → Bool
  | none => false
  | some (FVal.flag b) => b
  | some (FVal.str s) => !(s == "")

/-- One collected message object (msg_obj, src/main.py lines 450-458):
the raw event text, the cleaned text stored under the message key, and the
extracted fields. -/
structure Msg where
  rawText : String
  message : String
  fields : List (String × FVal)
deriving DecidableEq, Repr

def formatMarker : String := "Por favor, usa el formato correcto"

def dniKey : String := "dni"

def rucKey : String := "ruc"

def notFoundKey : String := "not_found"

/-- Scan for sub as a contiguous run inside a character list. -/
def hasSubList (sub : List Char) : List Char → Bool
  | [] => decide (sub = [])
  | c :: rest => sub.isPrefixOf (c :: rest) || hasSubList sub rest

/-- Python substring test (the in operator on str): s contains sub. -/
def hasSub (s sub : String) : Bool :=
  hasSubList sub.data s.data

/-! ## Response classifier (src/main.py lines 538-565) -/

inductive Verdict where
  | formatError
  | notFound
  | okv
deriving DecidableEq, Repr

/-- Loop of src/main.py lines 540-544: some message's cleaned text contains
the format-error marker. -/
def format_error_detected (msgs : List Msg) : Bool :=
  msgs.any (fun m => hasSub m.message formatMarker)

/-- Loop of src/main.py lines 554-558: some message's extracted fields carry
a truthy not_found flag. -/
def not_found_detected (msgs : List Msg) : Bool :=
  msgs.any (fun m => truthy (m.fields.lookup notFoundKey))

/-- Verdict on a completed message set, in the source's evaluation order:
the format-error check (and early return) comes before the not-found check,
and anything else is treated as a genuine answer. -/
def classify (msgs : List Msg) : Verdict :=
  if format_error_detected msgs then Verdict.formatError
  else if not_found_detected msgs then Verdict.notFound
  else Verdict.okv

/-- C4: a non-empty message set containing both a format-error marker and a
not-found marker classifies as format_error, not not_found (the format-error
check takes precedence). -/
theorem c4_classification_precedence (msgs : List Msg)
    (hne : msgs ≠ [])
    (hfmt : ∃ m ∈ msgs, hasSub m.message formatMarker = true)
    (hnf : ∃ m ∈ msgs, truthy (m.fields.lookup notFoundKey) = true) :
    classify msgs = Verdict.formatError ∧ classify msgs ≠ Verdict.notFound := by
  have h1 : format_error_detected msgs = true := by
    unfold format_error_detected
    rw [List.any_eq_true]
    exact hfmt
  refine ⟨?_, ?_⟩ <;> simp [classify, h1]

/-- Example message carrying both the format-error marker in its cleaned text
and a not-found flag in its extracted fields. -/
def msgBoth : Msg :=
  { rawText := "Por favor, usa el formato correcto"
  , message := "Por favor, usa el formato correcto"
  , fields := [(notFoundKey, FVal.flag true)] }

/-- Witness for C4: the concrete one-message set with both markers classifies
as format_error. -/
theorem c4_classification_precedence_witness :
    classify [msgBoth] = Verdict.formatError ∧ classify [msgBoth] ≠ Verdict.notFound :=
  c4_classification_precedence [msgBoth] (by decide)
    ⟨msgBoth, by decide⟩ ⟨msgBoth, by decide⟩

/-! ## Result aggregator (src/main.py lines 567-591)

all_fields starts empty; for each message in arrival order, each extracted
key/value pair is added only when the key is not yet present
(lines 577-581), so the merge is first-write-wins per key. -/

/-- Fold one message's field list into the accumulated field map
(src/main.py lines 578-581). -/
def addFields {β : Type} (acc fs : List (String × β)) : List (String × β) :=
  fs.foldl (fun a kv => if (a.lookup kv.1).isSome then a else a ++ [kv]) acc

/-- Merge the per-message extracted field maps across all messages
(src/main.py lines 570-581). -/
def mergeFields {β : Type} (msgss : List (List (String × β))) : List (String × β) :=
  msgss.foldl addFields []

/-- Left-biased choice on optional values, used to state first-write-wins. -/
def optOr {β : Type} : Option β → Option β → Option β
  | some v, _ => some v
  | none, y => y

theorem optOr_none_left {β : Type} (y : Option β) : optOr none y = y := rfl

theorem optOr_some_left {β : Type} (v : β) (y : Option β) : optOr (some v) y = some v := rfl

theorem optOr_none_right {β : Type} (x : Option β) : optOr x none = x := by
  cases x <;> rfl

theorem optOr_assoc {β : Type} (x y z : Option β) :
    optOr (optOr x y) z = optOr x (optOr y z) := by
  cases x <;> rfl

theorem lookup_cons {β : Type} (k : String) (p : String × β) (l : List (String × β)) :
    (p :: l).lookup k = if k == p.1 then some p.2 else l.lookup k := by
  cases p with
  | mk k1 v1 =>
    show List.lookup k ((k1, v1) :: l) = _
    cases h : k == k1 with
    | true => simp [List.lookup, h]
    | false => simp [List.lookup, h]

theorem lookup_append {β : Type} (k : String) :
    ∀ a b : List (String × β), (a ++ b).lookup k = optOr (a.lookup k) (b.lookup k) := by
  intro a
  induction a with
  | nil =>
    intro b
    simp [List.lookup, optOr_none_left]
  | cons p a ih =>
    intro b
    rw [List.cons_append, lookup_cons, lookup_cons]
    by_cases h : k == p.1
    · simp [h, optOr_some_left]
    · simp only [Bool.not_eq_true] at h
      simp [h, ih b]

theorem addFields_step_lookup {β : Type} (k : String) (acc : List (String × β))
    (p : String × β) :
    (if (acc.lookup p.1).isSome then acc else acc ++ [p]).lookup k
      = optOr (acc.lookup k) ([p].lookup k) := by
  by_cases hp : (acc.lookup p.1).isSome
  · rw [if_pos hp]
    by_cases hk : (k == p.1) = true
    · have hk' : k = p.1 := by simpa using hk
      subst hk'
      obtain ⟨v, hv⟩ := Option.isSome_iff_exists.mp hp
      rw [hv, lookup_cons]
      simp [optOr_some_left]
    · rw [lookup_cons]
      simp only [Bool.not_eq_true] at hk
      simp [hk, optOr_none_right]
  · rw [if_neg hp, lookup_append]

theorem addFields_lookup {β : Type} (k : String) :
    ∀ (fs acc : List (String × β)),
      (addFields acc fs).lookup k = optOr (acc.lookup k) (fs.lookup k) := by
  intro fs
  induction fs with
  | nil =>
    intro acc
    simp [addFields, List.lookup, optOr_none_right]
  | cons p fs ih =>
    intro acc
    show (addFields (if (acc.lookup p.1).isSome then acc else acc ++ [p]) fs).lookup k = _
    rw [ih, addFields_step_lookup, optOr_assoc, lookup_cons]
    by_cases h : k == p.1
    · simp [h, lookup_cons, optOr]
    · simp only [Bool.not_eq_true] at h
      simp [h, lookup_cons, optOr_none_left]

theorem mergeFields_foldl_lookup {β : Type} (k : String) :
    ∀ (msgss : List (List (String × β))) (acc : List (String × β)),
      (msgss.foldl addFields acc).lookup k
        = optOr (acc.lookup k) (msgss.findSome? (fun fs => fs.lookup k)) := by
  intro msgss
  induction msgss with
  | nil =>
    intro acc
    simp [List.findSome?, optOr_none_right]
  | cons fs msgss ih =>
    intro acc
    rw [List.foldl_cons, ih, addFields_lookup, optOr_assoc]
    congr 1
    rw [List.findSome?_cons]
    cases h : fs.lookup k <;> simp [optOr]

/-- C6: the aggregator merges the per-message extracted field maps with
first-write-wins per key: the merged map's value at any key is the value
found in the earliest message that contains the key (so a value seen in an
earlier message is never overwritten by a later one); in particular
mergeFields applied to messages with dni = A and then dni = B yields A. -/
theorem c6_first_write_wins {β : Type} (msgss : List (List (String × β))) (key : String) :
    (mergeFields msgss).lookup key = msgss.findSome? (fun fs => fs.lookup key) := by
  unfold mergeFields
  rw [mergeFields_foldl_lookup]
  simp [List.lookup, optOr_none_left]

/-! ## Incoming-message handler (src/main.py lines 353-469)

temp_handler ignores events once stop_collecting is set, ignores events whose
resolved sender is not one of the bots being tried, and — when the query
carries an extracted dni — drops any event whose cleaned fields do not carry
exactly that dni (lines 384-386).  Surviving events are appended to
all_received_messages. -/

/-- One incoming transport event together with the output of the
text-normalization collaborator on its raw text. -/
structure TgEvent where
  senderIsBot : Bool
  rawText : String
  cleanedText : String
  cleanedFields : List (String × FVal)
deriving DecidableEq, Repr

/-- Message object built from an accepted event (src/main.py lines 450-458). -/
def mkMsg (ev : TgEvent) : Msg :=
  { rawText := ev.rawText, message := ev.cleanedText, fields := ev.cleanedFields }

/-- Embedding of temp_handler's accept/reject decision for one event
(src/main.py lines 354-386 and 460). -/
def handleEvent (dni : Option String) (stopSet : Bool) (acc : List Msg)
    (ev : TgEvent) : List Msg :=
  if stopSet then acc
  else if ev.senderIsBot = false then acc
  else
    match dni with
    | some d =>
      if ev.cleanedFields.lookup dniKey = some (FVal.str d) then acc ++ [mkMsg ev]
      else acc
    | none => acc ++ [mkMsg ev]

/-- All messages collected from a stream of events during one session. -/
def collectEvents (dni : Option String) (stopSet : Bool) (events : List TgEvent) : List Msg :=
  events.foldl (handleEvent dni stopSet) []

theorem collectEvents_key_aux (d : String) (stopSet : Bool) :
    ∀ (events : List TgEvent) (acc : List Msg),
      (∀ m ∈ acc, m.fields.lookup dniKey = some (FVal.str d)) →
      ∀ m ∈ events.foldl (handleEvent (some d) stopSet) acc,
        m.fields.lookup dniKey = some (FVal.str d) := by
  intro events
  induction events with
  | nil =>
    intro acc hacc m hm
    exact hacc m hm
  | cons ev events ih =>
    intro acc hacc m hm
    refine ih (handleEvent (some d) stopSet acc ev) ?_ m hm
    intro m' hm'
    unfold handleEvent at hm'
    by_cases hstop : stopSet
    · rw [if_pos hstop] at hm'
      exact hacc m' hm'
    · rw [if_neg hstop] at hm'
      by_cases hsend : ev.senderIsBot = false
      · rw [if_pos hsend] at hm'
        exact hacc m' hm'
      · rw [if_neg hsend] at hm'
        simp only at hm'
        by_cases hd : ev.cleanedFields.lookup dniKey = some (FVal.str d)
        · rw [if_pos hd] at hm'
          rcases List.mem_append.mp hm' with hin | hin
          · exact hacc m' hin
          · obtain rfl : m' = mkMsg ev := by simpa using hin
            exact hd
        · rw [if_neg hd] at hm'
          exact hacc m' hm'

/-- C9: when the query has a correlation key (an extracted dni), every
message appended to the session's message list has that same extracted key;
no event whose extracted key differs (or is absent) is ever added. -/
theorem c9_correlation_filter (d : String) (stopSet : Bool) (events : List TgEvent)
    (m : Msg) (hm : m ∈ collectEvents (some d) stopSet events) :
    m.fields.lookup dniKey = some (FVal.str d) := by
  exact collectEvents_key_aux d stopSet events [] (by intro x hx; cases hx) m hm

/-- Example event stream: one matching event, one with the wrong dni, one from
a non-bot sender. -/
def eventsEx : List TgEvent :=
  [ { senderIsBot := true, rawText := "DNI : 12345678"
    , cleanedText := "DNI : 12345678"
    , cleanedFields := [(dniKey, FVal.str "12345678")] }
  , { senderIsBot := true, rawText := "DNI : 99999999"
    , cleanedText := "DNI : 99999999"
    , cleanedFields := [(dniKey, FVal.str "99999999")] }
  , { senderIsBot := false, rawText := "hola"
    , cleanedText := "hola"
    , cleanedFields := [] } ]

/-- The one message that survives the filter on eventsEx. -/
def acceptedEx : Msg :=
  { rawText := "DNI : 12345678", message := "DNI : 12345678"
  , fields := [(dniKey, FVal.str "12345678")] }

/-- Witness for C9: on the concrete stream the accepted message is collected
and carries the query's correlation key. -/
theorem c9_correlation_filter_witness :
    acceptedEx.fields.lookup dniKey = some (FVal.str "12345678") :=
  c9_correlation_filter "12345678" false eventsEx acceptedEx (by decide)

/-! ## Failover orchestrator (src/main.py lines 281-700)

send_telegram_command checks the API credentials and the session string
(raising before the client is even created), connects and checks
authorization, consults the storage cache, builds the eligible-bot order
from the circuit breaker, and then tries each eligible bot sequentially.
What the collection phase observed for a given bot is abstracted as a
BotBehavior: the wait loop raised TimeoutError with zero messages, or the
wait loop closed with the collected message list, or the send itself raised
UserBlockedError.  The dispatch result records, besides the returned dict's
fields, the trace observations the specification talks about: which bots the
command was sent to, the final circuit-breaker state, and whether the
transport client was connected and disconnected. -/

inductive BotBehavior where
  | collectTimeout
  | collectOk (msgs : List Msg)
  | userBlocked

def okStatus : String := "ok"

def errorStatus : String := "error"

def errorBotFormatStatus : String := "error_bot_format"

def errorNotFoundStatus : String := "error_not_found"

def errPrefix : String := "Error al procesar comando: "

def joinSep : String := "\n\n---\n\n"

def fmtErrorMessage : String := "Formato de consulta incorrecto. Verifica los parámetros enviados."

def notFoundMessage : String := "No se encontraron resultados para dicha consulta. Intenta con otro dato."

def emptyOkMessage : String := "Consulta procesada"

def noMsgsReceivedMsg : String := "No se recibieron mensajes del bot"

def unexpectedFlowMsg : String := "Flujo inesperado - no se obtuvo respuesta"

def allBlockedUserMsg : String := "Todos los bots están bloqueados"

def allBlockedTempMsg : String := "Todos los bots están temporalmente bloqueados."

def cacheMessage : String := "Consulta recuperada de cache"

def apiCredsErrMsg : String := "API_ID o API_HASH no configurados."

def sessionErrMsg : String := "SESSION_STRING no configurada. Se requiere sesión válida."

def authErrMsg : String := "Cliente no autorizado. La sesión puede haber expirado."

/-- Message of the exception raised when the last bot timed out
(src/main.py line 529). -/
def noBotRespondedMsg (timeoutSecs : Nat) : String :=
  "Ningún bot respondió. Último timeout: " ++ toString timeoutSecs ++ "s"

/-- Dict returned by one iteration of the bot loop (success or the two
classified terminal errors), before the outer wrapper adds the trace
fields. -/
structure LoopRes where
  status : String
  message : String
  botUsed : Option String
  fields : List (String × FVal)
  dni : Option FVal
  ruc : Option FVal
  totalMessages : Nat
deriving DecidableEq, Repr

/-- Either a dict was returned from inside the bot loop, or an exception
escaped the loop and will be formatted by the outermost handler. -/
inductive LoopOutcome where
  | done (res : LoopRes)
  | raised (emsg : String)
deriving DecidableEq, Repr

/-- Terminal dict for a detected format error (src/main.py lines 546-551);
the source dict carries only status, message and bot_used. -/
def formatErrorRes (bot : String) : LoopRes :=
  { status := errorBotFormatStatus, message := fmtErrorMessage, botUsed := some bot
  , fields := [], dni := none, ruc := none, totalMessages := 0 }

/-- Terminal dict for a detected not-found answer (src/main.py lines 560-565). -/
def notFoundRes (bot : String) : LoopRes :=
  { status := errorNotFoundStatus, message := notFoundMessage, botUsed := some bot
  , fields := [], dni := none, ruc := none, totalMessages := 0 }

/-- Successful consolidation of the collected messages
(src/main.py lines 567-614): concatenate non-empty cleaned texts with the
separator, merge fields first-write-wins, and promote truthy dni/ruc values
out of the generic field map to the top level. -/
def okLoopRes (bot : String) (msgs : List Msg) : LoopRes :=
  let texts := (msgs.map Msg.message).filter (fun s => !(s == ""))
  let allFields := mergeFields (msgs.map Msg.fields)
  let dniVal := allFields.lookup dniKey
  let rucVal := allFields.lookup rucKey
  { status := okStatus
  , message := if texts.isEmpty then emptyOkMessage else String.intercalate joinSep texts
  , botUsed := some bot
  , fields := allFields.filter (fun kv =>
      !(truthy dniVal && (kv.1 == dniKey)) && !(truthy rucVal && (kv.1 == rucKey)))
  , dni := if truthy dniVal then dniVal else none
  , ruc := if truthy rucVal then rucVal else none
  , totalMessages := msgs.length }

/-- Sequential attempt loop over the eligible bots (src/main.py lines
471-670).  Per attempted bot the command is sent exactly once (one trace
entry) and then, following the source: a timeout records a breaker failure
only for the primary bot and continues when further bots remain, raising the
no-response exception when the timed-out bot is the last; UserBlockedError
from the send records a failure for the failing bot itself; an empty
collection raises (and the generic handler continues or re-raises — its
lowercased message does not contain the word blocked, so it never records a
failure); a non-empty collection is classified, format-error and not-found
dicts are returned immediately, and anything else is consolidated and
returned.  The base case is the unreachable raise after the for loop
(src/main.py line 670). -/
def runAttempts (behavior : String → BotBehavior) (now : Int) :
    Tracker → List String → LoopOutcome × Tracker × List String
  | t, [] => (LoopOutcome.raised unexpectedFlowMsg, t, [])
  | t, bot :: rest =>
    match behavior bot with
    | BotBehavior.collectTimeout =>
      let t2 := if bot = LEDERDATA_BOT_ID then record_bot_failure t now bot else t
      if rest.isEmpty then
        (LoopOutcome.raised (noBotRespondedMsg
          (if bot = LEDERDATA_BOT_ID then TIMEOUT_PRIMARY else TIMEOUT_BACKUP)), t2, [bot])
      else
        let r := runAttempts behavior now t2 rest
        (r.1, r.2.1, bot :: r.2.2)
    | BotBehavior.userBlocked =>
      let t2 := record_bot_failure t now bot
      if rest.isEmpty then
        (LoopOutcome.raised allBlockedUserMsg, t2, [bot])
      else
        let r := runAttempts behavior now t2 rest
        (r.1, r.2.1, bot :: r.2.2)
    | BotBehavior.collectOk msgs =>
      if msgs.isEmpty then
        if rest.isEmpty then
          (LoopOutcome.raised noMsgsReceivedMsg, t, [bot])
        else
          let r := runAttempts behavior now t rest
          (r.1, r.2.1, bot :: r.2.2)
      else
        match classify msgs with
        | Verdict.formatError => (LoopOutcome.done (formatErrorRes bot), t, [bot])
        | Verdict.notFound => (LoopOutcome.done (notFoundRes bot), t, [bot])
        | Verdict.okv => (LoopOutcome.done (okLoopRes bot msgs), t, [bot])

/-- Eligible bot order (src/main.py lines 332-338): primary first, then
backup, each included only when its circuit-breaker block has not elapsed;
the blocked checks are threaded because is_bot_blocked lazily clears expired
entries. -/
def eligible_bots (t : Tracker) (now : Int) : List String × Tracker :=
  let r1 := is_bot_blocked t now LEDERDATA_BOT_ID
  let r2 := is_bot_blocked r1.2 now LEDERDATA_BACKUP_BOT_ID
  ((if r1.1 then [] else [LEDERDATA_BOT_ID])
    ++ (if r2.1 then [] else [LEDERDATA_BACKUP_BOT_ID]), r2.2)

/-- Inputs of one dispatch call: configuration and transport ok-flags, the
cache answer, the dni extracted from the command, the circuit-breaker state,
the current time and the per-bot collection behaviours. -/
structure DispatchEnv where
  apiOk : Bool
  sessionOk : Bool
  authOk : Bool
  cacheHit : Bool
  dni : Option String
  tracker : Tracker
  now : Int
  behavior : String → BotBehavior

/-- Returned dict plus the trace observations of one dispatch call. -/
structure DispatchResult where
  status : String
  message : String
  botUsed : Option String
  fields : List (String × FVal)
  dni : Option FVal
  ruc : Option FVal
  totalMessages : Nat
  fromCache : Bool
  sends : List String
  tracker : Tracker
  connected : Bool
  disconnected : Bool

/-- Error dict built by the outermost handler (src/main.py lines 672-676);
the client is disconnected in the finally block exactly when it was created,
which coincides with the connect call having happened. -/
def errResult (m : String) (conn : Bool) (t : Tracker) (sends : List String) : DispatchResult :=
  { status := errorStatus, message := errPrefix ++ m, botUsed := none, fields := []
  , dni := none, ruc := none, totalMessages := 0, fromCache := false
  , sends := sends, tracker := t, connected := conn, disconnected := conn }

/-- Cache-hit short-circuit (src/main.py lines 317-329). -/
def cacheResult (env : DispatchEnv) : DispatchResult :=
  { status := okStatus, message := cacheMessage, botUsed := none
  , fields := match env.dni with | some d => [(dniKey, FVal.str d)] | none => []
  , dni := none, ruc := none, totalMessages := 0, fromCache := true
  , sends := [], tracker := env.tracker, connected := true, disconnected := true }

/-- Embedding of send_telegram_command (src/main.py lines 281-700). -/
def send_telegram_command (env : DispatchEnv) : DispatchResult :=
  if env.apiOk = false then errResult apiCredsErrMsg false env.tracker []
  else if env.sessionOk = false then errResult sessionErrMsg false env.tracker []
  else if env.authOk = false then errResult authErrMsg true env.tracker []
  else if env.cacheHit then cacheResult env
  else if (eligible_bots env.tracker env.now).1.isEmpty then
    errResult allBlockedTempMsg true (eligible_bots env.tracker env.now).2 []
  else
    match (runAttempts env.behavior env.now (eligible_bots env.tracker env.now).2
        (eligible_bots env.tracker env.now).1).1 with
    | LoopOutcome.done res =>
      { status := res.status, message := res.message, botUsed := res.botUsed
      , fields := res.fields, dni := res.dni, ruc := res.ruc
      , totalMessages := res.totalMessages, fromCache := false
      , sends := (runAttempts env.behavior env.now (eligible_bots env.tracker env.now).2
          (eligible_bots env.tracker env.now).1).2.2
      , tracker := (runAttempts env.behavior env.now (eligible_bots env.tracker env.now).2
          (eligible_bots env.tracker env.now).1).2.1
      , connected := true, disconnected := true }
    | LoopOutcome.raised m =>
      errResult m true
        (runAttempts env.behavior env.now (eligible_bots env.tracker env.now).2
          (eligible_bots env.tracker env.now).1).2.1
        (runAttempts env.behavior env.now (eligible_bots env.tracker env.now).2
          (eligible_bots env.tracker env.now).1).2.2

/-- Tracker with no recorded failures. -/
def emptyTracker : Tracker := fun _ => none

/-- C7: a completed collection classified as format_error or not_found is
returned immediately as that classified error: the circuit-breaker state is
left exactly as it was, the command is sent to no further bot (the trace
ends at the answering bot), and the returned dict is the classified error
tagged with the answering bot. -/
theorem c7_terminal_classified_errors (behavior : String → BotBehavior) (now : Int)
    (t : Tracker) (bot : String) (rest : List String) (msgs : List Msg)
    (hb : behavior bot = BotBehavior.collectOk msgs) (hne : msgs ≠ [])
    (hcl : classify msgs = Verdict.formatError ∨ classify msgs = Verdict.notFound) :
    (runAttempts behavior now t (bot :: rest)).2.1 = t
    ∧ (runAttempts behavior now t (bot :: rest)).2.2 = [bot]
    ∧ (classify msgs = Verdict.formatError →
        (runAttempts behavior now t (bot :: rest)).1 = LoopOutcome.done (formatErrorRes bot))
    ∧ (classify msgs = Verdict.notFound →
        (runAttempts behavior now t (bot :: rest)).1 = LoopOutcome.done (notFoundRes bot)) := by
  have hm : msgs.isEmpty = false := by
    cases msgs with
    | nil => exact absurd rfl hne
    | cons a l => rfl
  rcases hcl with hcl | hcl <;>
    refine ⟨?_, ?_, ?_, ?_⟩ <;>
    simp [runAttempts, hb, hm, hcl]

/-- Behaviour in which every bot answers with the double-marker message. -/
def behaviorC7 : String → BotBehavior := fun _ => BotBehavior.collectOk [msgBoth]

/-- Witness for C7: with a concrete format-error answer from the primary, the
loop returns the format-error dict at once, with an untouched tracker and a
single send. -/
theorem c7_terminal_classified_errors_witness :
    (runAttempts behaviorC7 0 emptyTracker [LEDERDATA_BOT_ID, LEDERDATA_BACKUP_BOT_ID]).2.1
      = emptyTracker
    ∧ (runAttempts behaviorC7 0 emptyTracker [LEDERDATA_BOT_ID, LEDERDATA_BACKUP_BOT_ID]).2.2
      = [LEDERDATA_BOT_ID]
    ∧ (runAttempts behaviorC7 0 emptyTracker [LEDERDATA_BOT_ID, LEDERDATA_BACKUP_BOT_ID]).1
      = LoopOutcome.done (formatErrorRes LEDERDATA_BOT_ID) := by
  have h := c7_terminal_classified_errors behaviorC7 0 emptyTracker LEDERDATA_BOT_ID
    [LEDERDATA_BACKUP_BOT_ID] [msgBoth] rfl (by decide) (Or.inl (by decide))
  exact ⟨h.1, h.2.1, h.2.2.1 (by decide)⟩

theorem prefix_cons_of_prefix {α : Type} (a : α) (l1 l2 : List α)
    (h : l1 <+: l2) : a :: l1 <+: a :: l2 := by
  obtain ⟨s, hs⟩ := h
  exact ⟨s, by rw [List.cons_append, hs]⟩

theorem runAttempts_sends_prefix (behavior : String → BotBehavior) (now : Int) :
    ∀ (bots : List String) (t : Tracker),
      (runAttempts behavior now t bots).2.2 <+: bots := by
  intro bots
  induction bots with
  | nil =>
    intro t
    exact List.nil_prefix
  | cons bot rest ih =>
    intro t
    have hone : [bot] <+: bot :: rest := ⟨rest, rfl⟩
    cases hb : behavior bot with
    | collectTimeout =>
      cases hrest : rest.isEmpty with
      | true => simpa [runAttempts, hb, hrest] using hone
      | false =>
        simp only [runAttempts, hb, hrest]
        exact prefix_cons_of_prefix bot _ rest (ih _)
    | userBlocked =>
      cases hrest : rest.isEmpty with
      | true => simpa [runAttempts, hb, hrest] using hone
      | false =>
        simp only [runAttempts, hb, hrest]
        exact prefix_cons_of_prefix bot _ rest (ih _)
    | collectOk msgs =>
      cases hm : msgs.isEmpty with
      | true =>
        cases hrest : rest.isEmpty with
        | true => simpa [runAttempts, hb, hm, hrest] using hone
        | false =>
          simp only [runAttempts, hb, hm, hrest]
          exact prefix_cons_of_prefix bot _ rest (ih _)
      | false =>
        cases hcl : classify msgs with
        | formatError => simpa [runAttempts, hb, hm, hcl] using hone
        | notFound => simpa [runAttempts, hb, hm, hcl] using hone
        | okv => simpa [runAttempts, hb, hm, hcl] using hone

theorem eligible_bots_nodup (t : Tracker) (now : Int) :
    (eligible_bots t now).1.Nodup := by
  unfold eligible_bots
  cases h1 : (is_bot_blocked t now LEDERDATA_BOT_ID).1 <;>
  cases h2 : (is_bot_blocked (is_bot_blocked t now LEDERDATA_BOT_ID).2
      now LEDERDATA_BACKUP_BOT_ID).1 <;>
  simp [h1, h2] <;> decide

/-- C8: within one dispatch call the command is sent to each bot at most
once: the trace of sends (one entry per send_message invocation, one
invocation per attempted bot) never repeats a bot. -/
theorem c8_send_at_most_once (env : DispatchEnv) :
    (send_telegram_command env).sends.Nodup := by
  have hpre := runAttempts_sends_prefix env.behavior env.now
    (eligible_bots env.tracker env.now).1 (eligible_bots env.tracker env.now).2
  have hnd := eligible_bots_nodup env.tracker env.now
  have hsends : (runAttempts env.behavior env.now (eligible_bots env.tracker env.now).2
      (eligible_bots env.tracker env.now).1).2.2.Nodup :=
    List.Nodup.sublist hpre.sublist hnd
  unfold send_telegram_command
  cases hapi : env.apiOk with
  | false => simp [errResult]
  | true =>
    cases hsess : env.sessionOk with
    | false => simp [errResult]
    | true =>
      cases hauth : env.authOk with
      | false => simp [errResult]
      | true =>
        cases hcache : env.cacheHit with
        | true => simp [cacheResult]
        | false =>
          cases hemp : (eligible_bots env.tracker env.now).1.isEmpty with
          | true => simp [errResult]
          | false =>
            cases hr : (runAttempts env.behavior env.now
                (eligible_bots env.tracker env.now).2
                (eligible_bots env.tracker env.now).1).1 with
            | done res => simpa [errResult] using hsends
            | raised m => simpa [errResult] using hsends

theorem runAttempts_done_status (behavior : String → BotBehavior) (now : Int) :
    ∀ (bots : List String) (t : Tracker) (res : LoopRes),
      (runAttempts behavior now t bots).1 = LoopOutcome.done res →
      res.status = okStatus ∨ res.status = errorBotFormatStatus
        ∨ res.status = errorNotFoundStatus := by
  intro bots
  induction bots with
  | nil =>
    intro t res h
    exact absurd h (by simp [runAttempts])
  | cons bot rest ih =>
    intro t res h
    cases hb : behavior bot with
    | collectTimeout =>
      cases hrest : rest.isEmpty with
      | true => simp [runAttempts, hb, hrest] at h
      | false =>
        simp [runAttempts, hb, hrest] at h
        exact ih _ res h
    | userBlocked =>
      cases hrest : rest.isEmpty with
      | true => simp [runAttempts, hb, hrest] at h
      | false =>
        simp [runAttempts, hb, hrest] at h
        exact ih _ res h
    | collectOk msgs =>
      cases hm : msgs.isEmpty with
      | true =>
        cases hrest : rest.isEmpty with
        | true => simp [runAttempts, hb, hm, hrest] at h
        | false =>
          simp [runAttempts, hb, hm, hrest] at h
          exact ih _ res h
      | false =>
        cases hcl : classify msgs with
        | formatError =>
          simp [runAttempts, hb, hm, hcl] at h
          subst h
          exact Or.inr (Or.inl rfl)
        | notFound =>
          simp [runAttempts, hb, hm, hcl] at h
          subst h
          exact Or.inr (Or.inr rfl)
        | okv =>
          simp [runAttempts, hb, hm, hcl] at h
          subst h
          exact Or.inl rfl

/-- Prefix test on strings through their character lists (used to state that
a status starts with the word error). -/
def strStartsWith (s pre : String) : Bool :=
  pre.data.isPrefixOf s.data

/-- C10: the dispatch entry point is total at its public interface: for every
input it returns a result whose status is either ok or starts with error (the
outermost except converts every internal failure into such a dict and no
exception escapes — the embedding is a total function), and the transport
client is disconnected whenever it was connected. -/
theorem c10_total_interface (env : DispatchEnv) :
    ((send_telegram_command env).status = okStatus
      ∨ strStartsWith (send_telegram_command env).status errorStatus = true)
    ∧ ((send_telegram_command env).connected = true →
        (send_telegram_command env).disconnected = true) := by
  unfold send_telegram_command
  cases hapi : env.apiOk with
  | false =>
    refine ⟨Or.inr ?_, ?_⟩
    · show strStartsWith errorStatus errorStatus = true
      decide
    · intro h
      exact h
  | true =>
    cases hsess : env.sessionOk with
    | false =>
      refine ⟨Or.inr ?_, ?_⟩
      · show strStartsWith errorStatus errorStatus = true
        decide
      · intro h
        exact h
    | true =>
      cases hauth : env.authOk with
      | false =>
        refine ⟨Or.inr ?_, fun _ => rfl⟩
        show strStartsWith errorStatus errorStatus = true
        decide
      | true =>
        cases hcache : env.cacheHit with
        | true => exact ⟨Or.inl rfl, fun _ => rfl⟩
        | false =>
          cases hemp : (eligible_bots env.tracker env.now).1.isEmpty with
          | true =>
            refine ⟨Or.inr ?_, fun _ => rfl⟩
            show strStartsWith errorStatus errorStatus = true
            decide
          | false =>
            cases hr : (runAttempts env.behavior env.now
                (eligible_bots env.tracker env.now).2
                (eligible_bots env.tracker env.now).1).1 with
            | done res =>
              refine ⟨?_, fun _ => rfl⟩
              show res.status = okStatus ∨ strStartsWith res.status errorStatus = true
              rcases runAttempts_done_status env.behavior env.now
                  (eligible_bots env.tracker env.now).1
                  (eligible_bots env.tracker env.now).2 res hr with h | h | h
              · exact Or.inl h
              · refine Or.inr ?_
                rw [h]
                decide
              · refine Or.inr ?_
                rw [h]
                decide
            | raised m =>
              refine ⟨Or.inr ?_, fun _ => rfl⟩
              show strStartsWith errorStatus errorStatus = true
              decide

/-- Example environment for the total-interface witness: missing API
credentials. -/
def envC10 : DispatchEnv :=
  { apiOk := false, sessionOk := false, authOk := false, cacheHit := false
  , dni := none, tracker := emptyTracker, now := 0
  , behavior := fun _ => BotBehavior.collectTimeout }

/-- Witness for C10: on the concrete credential-less environment the returned
status starts with error. -/
theorem c10_total_interface_witness :
    (send_telegram_command envC10).status = okStatus
      ∨ strStartsWith (send_telegram_command envC10).status errorStatus = true :=
  (c10_total_interface envC10).1

/-! ## C2: what a CLOSED_EMPTY_TIMEOUT actually records

The source records a circuit-breaker failure on a collection timeout only
when the timed-out bot is the primary (src/main.py lines 518-521); a backup
timeout records nothing.  The claim asserts the failure is recorded for the
timed-out actor whichever of the two it is, which the backup-only scenario
refutes. -/

/-- Tracker in which the primary bot failed at time 0 (so it is still blocked
at time 100, well inside the 14400-second window). -/
def trackerC2 : Tracker :=
  fun b => if b = LEDERDATA_BOT_ID then some 0 else none

/-- Environment for the C2 counterexample: the primary is circuit-blocked, so
only the backup is eligible, and the backup's collection times out with zero
messages. -/
def envC2 : DispatchEnv :=
  { apiOk := true, sessionOk := true, authOk := true, cacheHit := false
  , dni := none, tracker := trackerC2, now := 100
  , behavior := fun _ => BotBehavior.collectTimeout }

/-- Counterexample to C2 as stated: the backup bot is the (only) attempted
actor and its collection ends with zero messages at the total timeout, the
dispatch fails with the no-response error — yet no circuit-breaker failure is
recorded for the backup (its tracker entry stays empty), contradicting the
claim that the failure is recorded for the timed-out actor whichever of the
two actors it is. -/
theorem c2_empty_timeout_counterexample :
    envC2.behavior LEDERDATA_BACKUP_BOT_ID = BotBehavior.collectTimeout
    ∧ (send_telegram_command envC2).sends = [LEDERDATA_BACKUP_BOT_ID]
    ∧ (send_telegram_command envC2).status = errorStatus
    ∧ (send_telegram_command envC2).message
        = errPrefix ++ noBotRespondedMsg TIMEOUT_BACKUP
    ∧ (send_telegram_command envC2).tracker LEDERDATA_BACKUP_BOT_ID = none := by
  refine ⟨rfl, ?_, ?_, ?_, ?_⟩ <;> decide

/-- C2 (amended): when an actor's collection ends with zero messages at the
total timeout, a circuit-breaker failure is recorded only when the timed-out
actor is the primary — a backup timeout records nothing; the orchestrator
continues to the next eligible actor while one remains and fails with the
no-response error when the timed-out actor is the last eligible one.  Stated
on the both-bots-time-out run: the primary's failure is recorded at now, the
backup's entry is untouched, both bots are attempted in order, and the loop
ends with the no-response exception naming the backup's timeout. -/
theorem c2_empty_timeout_amended (behavior : String → BotBehavior) (now : Int)
    (t : Tracker)
    (hp : behavior LEDERDATA_BOT_ID = BotBehavior.collectTimeout)
    (hb : behavior LEDERDATA_BACKUP_BOT_ID = BotBehavior.collectTimeout) :
    (runAttempts behavior now t [LEDERDATA_BOT_ID, LEDERDATA_BACKUP_BOT_ID]).2.1
        LEDERDATA_BOT_ID = some now
    ∧ (runAttempts behavior now t [LEDERDATA_BOT_ID, LEDERDATA_BACKUP_BOT_ID]).2.1
        LEDERDATA_BACKUP_BOT_ID = t LEDERDATA_BACKUP_BOT_ID
    ∧ (runAttempts behavior now t [LEDERDATA_BOT_ID, LEDERDATA_BACKUP_BOT_ID]).2.2
        = [LEDERDATA_BOT_ID, LEDERDATA_BACKUP_BOT_ID]
    ∧ (runAttempts behavior now t [LEDERDATA_BOT_ID, LEDERDATA_BACKUP_BOT_ID]).1
        = LoopOutcome.raised (noBotRespondedMsg TIMEOUT_BACKUP) := by
  have hne : LEDERDATA_BACKUP_BOT_ID ≠ LEDERDATA_BOT_ID := by decide
  refine ⟨?_, ?_, ?_, ?_⟩ <;>
    simp [runAttempts, hp, hb, hne, record_bot_failure]

/-- Witness for the amended C2 on a concrete run: empty tracker, time 0,
both bots timing out. -/
theorem c2_empty_timeout_amended_witness :
    (runAttempts (fun _ => BotBehavior.collectTimeout) 0 emptyTracker
        [LEDERDATA_BOT_ID, LEDERDATA_BACKUP_BOT_ID]).2.1 LEDERDATA_BOT_ID = some 0
    ∧ (runAttempts (fun _ => BotBehavior.collectTimeout) 0 emptyTracker
        [LEDERDATA_BOT_ID, LEDERDATA_BACKUP_BOT_ID]).2.2
        = [LEDERDATA_BOT_ID, LEDERDATA_BACKUP_BOT_ID] := by
  have h := c2_empty_timeout_amended (fun _ => BotBehavior.collectTimeout) 0
    emptyTracker rfl rfl
  exact ⟨h.1, h.2.2.1⟩

/-! ## C1: the rate-limited classification does not exist in the code

The classification block (src/main.py lines 538-565) checks only the
format-error marker and the not_found flag; the source contains no anti-spam
marker string and no rate-limited branch, no discard-and-retry path and no
rate_limited_exhausted error.  The spec-side classifier rule is therefore
modelled from the spec and compared with what the code does. -/

/-- Modelled from the spec: classifier rule 3, missing from src/main.py —
"rate_limited — if any message's raw text contains the actor's anti-spam
marker".  The marker string itself appears nowhere in the source, so it is
kept as a parameter. -/
def spec_rate_limited (antiSpamMarker : String) (msgs : List Msg) : Bool :=
  msgs.any (fun m => hasSub m.rawText antiSpamMarker)

def antiSpamMarkerEx : String := "Anti-Spam"

/-- A deflection message carrying the anti-spam marker and neither the
format-error marker nor a not-found flag. -/
def msgRateLimited : Msg :=
  { rawText := "[Anti-Spam] Debes esperar antes de usar este comando."
  , message := "[Anti-Spam] Debes esperar antes de usar este comando."
  , fields := [] }

/-- Environment for the C1 counterexample: nothing blocked, the primary
answers with the anti-spam deflection, the backup would answer nothing. -/
def envC1 : DispatchEnv :=
  { apiOk := true, sessionOk := true, authOk := true, cacheHit := false
  , dni := none, tracker := emptyTracker, now := 0
  , behavior := fun b =>
      if b = LEDERDATA_BOT_ID then BotBehavior.collectOk [msgRateLimited]
      else BotBehavior.collectTimeout }

/-- Counterexample to C1 as stated: the collected message set is classified
rate_limited by the spec's rule (its raw text contains the anti-spam
marker), the backup actor is eligible — yet the dispatch does not discard
the messages and does not continue to the next eligible actor: it returns
status ok with the collected message from the primary, and only the primary
was ever sent the command. -/
theorem c1_rate_limited_counterexample :
    spec_rate_limited antiSpamMarkerEx [msgRateLimited] = true
    ∧ (eligible_bots envC1.tracker envC1.now).1
        = [LEDERDATA_BOT_ID, LEDERDATA_BACKUP_BOT_ID]
    ∧ (send_telegram_command envC1).status = okStatus
    ∧ (send_telegram_command envC1).botUsed = some LEDERDATA_BOT_ID
    ∧ (send_telegram_command envC1).totalMessages = 1
    ∧ (send_telegram_command envC1).sends = [LEDERDATA_BOT_ID] := by
  refine ⟨?_, ?_, ?_, ?_, ?_, ?_⟩ <;> decide

/-- C1 (amended): the code performs no rate-limited classification — a
collected non-empty message set whose raw text contains the anti-spam marker
but which carries neither a format-error marker nor a not-found flag is
classified ok and returned immediately as that actor's genuine answer: the
messages are kept (the consolidated dict counts them all), the
circuit-breaker state is untouched, no further actor is contacted and no
rate_limited_exhausted error exists. -/
theorem c1_rate_limited_amended (marker : String) (behavior : String → BotBehavior)
    (now : Int) (t : Tracker) (bot : String) (rest : List String) (msgs : List Msg)
    (hb : behavior bot = BotBehavior.collectOk msgs) (hne : msgs ≠ [])
    (hrl : spec_rate_limited marker msgs = true)
    (hok : classify msgs = Verdict.okv) :
    runAttempts behavior now t (bot :: rest)
      = (LoopOutcome.done (okLoopRes bot msgs), t, [bot]) := by
  have hm : msgs.isEmpty = false := by
    cases msgs with
    | nil => exact absurd rfl hne
    | cons a l => rfl
  simp [runAttempts, hb, hm, hok]

/-- Witness for the amended C1 on the concrete deflection answer. -/
theorem c1_rate_limited_amended_witness :
    runAttempts envC1.behavior 0 emptyTracker
        [LEDERDATA_BOT_ID, LEDERDATA_BACKUP_BOT_ID]
      = (LoopOutcome.done (okLoopRes LEDERDATA_BOT_ID [msgRateLimited]),
          emptyTracker, [LEDERDATA_BOT_ID]) :=
  c1_rate_limited_amended antiSpamMarkerEx envC1.behavior 0 emptyTracker
    LEDERDATA_BOT_ID [LEDERDATA_BACKUP_BOT_ID] [msgRateLimited]
    rfl (by decide) (by decide) (by decide)

end TlgmApi
